import Mathlib

/-!
Shallow embedding of the OAuth2 login / token-lifecycle subsystem of the
gmail-cli repository (src/auth/oauth.rs, src/auth/token.rs,
src/auth/token_store.rs, src/error.rs), together with theorems settling the
specification claims about it.

Conventions of the embedding:
* Rust `Result<T, AppError>` becomes `Except AppError T`.
* `SystemTime` is modelled as whole Unix seconds in `Int`; a negative value is
  a clock strictly before the Unix epoch, for which Rust's
  `duration_since(UNIX_EPOCH)` fails.
* Network calls and the filesystem are passed in explicitly: the outcome of the
  token endpoint, the userinfo fetch and the revoke endpoint are parameters,
  and the file-backed token store is a map from profile name to the stored
  record. Each orchestrator model additionally reports whether the token
  endpoint was contacted and what the store holds afterwards.
* Byte values are `Nat` constrained to `< 256` where it matters.
-/

namespace GmailCli

/-- The error enum of src/error.rs. The variants that wrap foreign error types
(`io::Error`, `reqwest::Error`, `serde_json::Error`, `url::ParseError`) carry
the rendered message of the wrapped error as a `String`. -/
inductive AppError where
  | Config (msg : String)
  | Auth (msg : String)
  | Api (msg : String)
  | InvalidInput (msg : String)
  | NotImplemented (msg : String)
  | Io (msg : String)
  | Http (msg : String)
  | Json (msg : String)
  | Url (msg : String)
deriving DecidableEq, Repr

/-- The `Display` rendering of `AppError` given by the `#[error(...)]`
attributes in src/error.rs; used where the Rust code formats an error with
`{err}`. -/
def AppError.render : AppError → String
  | .Config m => "configuration error: " ++ m
  | .Auth m => "auth error: " ++ m
  | .Api m => "api error: " ++ m
  | .InvalidInput m => "invalid input: " ++ m
  | .NotImplemented m => "not implemented: " ++ m
  | .Io m => "io error: " ++ m
  | .Http m => "http error: " ++ m
  | .Json m => "json error: " ++ m
  | .Url m => "url parse error: " ++ m

instance {ε α : Type} [DecidableEq ε] [DecidableEq α] : DecidableEq (Except ε α) :=
  fun x y =>
    match x, y with
    | .ok a, .ok b =>
      if h : a = b then .isTrue (by rw [h]) else
        .isFalse (fun hc => by injection hc; contradiction)
    | .error a, .error b =>
      if h : a = b then .isTrue (by rw [h]) else
        .isFalse (fun hc => by injection hc; contradiction)
    | .ok _, .error _ => .isFalse (fun hc => by injection hc)
    | .error _, .ok _ => .isFalse (fun hc => by injection hc)

/-- The persisted credential record of src/auth/token.rs. -/
structure TokenSet where
  access_token : String
  refresh_token : Option String
  expires_at_unix : Option Nat
  token_type : Option String
  scope : Option String
  email : Option String
  name : Option String
deriving DecidableEq, Repr

/-- `TokenSet::EXPIRY_SKEW_SECS` from src/auth/token.rs. -/
def EXPIRY_SKEW_SECS : Nat := 30

/-- `TokenSet::is_expired` from src/auth/token.rs. `now` is the clock in Unix
seconds; when `now` is before the epoch, `now.duration_since(UNIX_EPOCH)`
fails and the function returns `false`. (`saturating_add` cannot overflow in
the `Nat` model; it only saturates at `u64::MAX`, where the comparison result
is `≥` in both models.) -/
def TokenSet.is_expired (t : TokenSet) (now : Int) : Bool :=
  match t.expires_at_unix with
  | none => false
  | some expires_at =>
    if now < 0 then false
    else decide (now.toNat + EXPIRY_SKEW_SECS ≥ expires_at)

/-- `TokenSet::expires_in_seconds` from src/auth/token.rs. -/
def TokenSet.expires_in_seconds (t : TokenSet) (now : Int) : Option Int :=
  match t.expires_at_unix with
  | none => none
  | some expires_at =>
    if now < 0 then none
    else some ((expires_at : Int) - (now.toNat : Int))

/-- `TokenSet::has_refresh_token` from src/auth/token.rs. -/
def TokenSet.has_refresh_token (t : TokenSet) : Bool :=
  t.refresh_token.isSome

/-- Value of an ASCII hex digit. -/
def hexVal (c : Char) : Option Nat :=
  if '0' ≤ c ∧ c ≤ '9' then some (c.toNat - '0'.toNat)
  else if 'a' ≤ c ∧ c ≤ 'f' then some (c.toNat - 'a'.toNat + 10)
  else if 'A' ≤ c ∧ c ≤ 'F' then some (c.toNat - 'A'.toNat + 10)
  else none

/-- application/x-www-form-urlencoded decoding of one key or value, as done by
the `form_urlencoded` parser behind `Url::query_pairs()` in the `url` crate:
`+` becomes a space, `%XY` with two hex digits becomes the byte `0xXY`, an
invalid percent sequence is passed through unchanged. Decoded bytes are mapped
directly to code points (the model covers ASCII payloads; multi-byte UTF-8
sequences are out of scope of the claims). -/
def formDecodeAux : List Char → List Char
  | [] => []
  | '+' :: rest => ' ' :: formDecodeAux rest
  | '%' :: a :: b :: rest =>
    match hexVal a, hexVal b with
    | some hi, some lo => Char.ofNat (16 * hi + lo) :: formDecodeAux rest
    | _, _ => '%' :: formDecodeAux (a :: b :: rest)
  | c :: rest => c :: formDecodeAux rest

def formDecode (s : String) : String :=
  ⟨formDecodeAux s.data⟩

/-- Split a character list at every occurrence of `sep`, keeping empty
segments — the splitting behaviour of Rust's `str::split` on a single-char
pattern (and of `String.splitOn`, re-derived structurally so that it reduces). -/
def splitOnChar (sep : Char) : List Char → List (List Char)
  | [] => [[]]
  | c :: rest =>
    if c = sep then [] :: splitOnChar sep rest
    else
      match splitOnChar sep rest with
      | [] => [[c]]
      | h :: t => (c :: h) :: t

/-- Join segments with a separator character: inverse of `splitOnChar` on
separator-free segments. -/
def joinSep (sep : Char) : List (List Char) → List Char
  | [] => []
  | [x] => x
  | x :: xs => x ++ sep :: joinSep sep xs

/-- The path component of `Url::parse("http://localhost{target}")` for an
origin-form request target: everything before the first `?` (a fragment after
`#` is stripped first); an empty path serializes as `/`. Dot-segment
normalization and percent-encoding normalization of exotic paths are outside
the model. -/
def targetPath (target : String) : String :=
  let noFrag := (splitOnChar '#' target.data).headD []
  let p := (splitOnChar '?' noFrag).headD []
  if p = [] then "/" else ⟨p⟩

/-- The raw query component of `Url::parse("http://localhost{target}")`:
everything after the first `?` (fragment stripped first). -/
def targetQuery (target : String) : String :=
  let noFrag := (splitOnChar '#' target.data).headD []
  match splitOnChar '?' noFrag with
  | [] => ""
  | [_] => ""
  | _ :: rest => ⟨joinSep '?' rest⟩

/-- `Url::query_pairs()`: split the raw query on `&`, skip empty pieces, split
each piece at the first `=` (no `=` means an empty value), and form-decode both
sides. -/
def queryPairs (q : String) : List (String × String) :=
  (splitOnChar '&' q.data).foldr
    (fun piece acc =>
      if piece = [] then acc
      else
        let key := piece.takeWhile (· ≠ '=')
        let val := (piece.dropWhile (· ≠ '=')).drop 1
        (formDecode ⟨key⟩, formDecode ⟨val⟩) :: acc)
    []

/-- The four query parameters that the loop in `extract_callback_code`
(src/auth/oauth.rs) collects; a repeated key keeps the last occurrence, as the
loop reassigns the corresponding local. -/
structure CallbackParams where
  code : Option String
  state : Option String
  oauth_error : Option String
  oauth_error_description : Option String
deriving DecidableEq, Repr

def collectParams (pairs : List (String × String)) : CallbackParams :=
  pairs.foldl
    (fun acc kv =>
      if kv.1 = "code" then { acc with code := some kv.2 }
      else if kv.1 = "state" then { acc with state := some kv.2 }
      else if kv.1 = "error" then { acc with oauth_error := some kv.2 }
      else if kv.1 = "error_description" then
        { acc with oauth_error_description := some kv.2 }
      else acc)
    ⟨none, none, none, none⟩

def callbackParams (target : String) : CallbackParams :=
  collectParams (queryPairs (targetQuery target))

/-- `extract_callback_code` from src/auth/oauth.rs: parse the request target
against a synthetic local base, reject a path mismatch, propagate a provider
`error`/`error_description`, enforce the expected `state`, then require
`code`. (The `Url::parse` failure arm is not modelled: an origin-form target
always parses against the `http://localhost` base.) -/
def extract_callback_code (target expected_path expected_state : String) :
    Except AppError String :=
  let path := targetPath target
  if path ≠ expected_path then
    .error (.Auth ("oauth callback path mismatch: expected " ++ expected_path
      ++ ", got " ++ path))
  else
    let p := callbackParams target
    match p.oauth_error with
    | some error =>
      .error (.Auth ("oauth authorization failed: " ++ error ++ " ("
        ++ p.oauth_error_description.getD "no description" ++ ")"))
    | none =>
      match p.state with
      | none => .error (.Auth "oauth callback missing state parameter")
      | some received_state =>
        if received_state ≠ expected_state then
          .error (.Auth "oauth state mismatch; aborting login")
        else
          match p.code with
          | some c => .ok c
          | none => .error (.Auth "oauth callback missing code parameter")

/-- The URL-safe base64 alphabet (`URL_SAFE_NO_PAD` of the `base64` crate):
`A-Z`, `a-z`, `0-9`, `-`, `_`; there is no padding character. -/
def b64uChar (i : Nat) : Char :=
  if i < 26 then Char.ofNat ('A'.toNat + i)
  else if i < 52 then Char.ofNat ('a'.toNat + (i - 26))
  else if i < 62 then Char.ofNat ('0'.toNat + (i - 52))
  else if i = 62 then '-'
  else '_'

/-- Inverse of the URL-safe base64 alphabet. -/
def b64uVal (c : Char) : Option Nat :=
  if 'A' ≤ c ∧ c ≤ 'Z' then some (c.toNat - 'A'.toNat)
  else if 'a' ≤ c ∧ c ≤ 'z' then some (c.toNat - 'a'.toNat + 26)
  else if '0' ≤ c ∧ c ≤ '9' then some (c.toNat - '0'.toNat + 52)
  else if c = '-' then some 62
  else if c = '_' then some 63
  else none

/-- Unpadded URL-safe base64 encoding (`URL_SAFE_NO_PAD.encode`): bytes in
groups of three become four characters; a trailing group of one or two bytes
becomes two or three characters and no `=` padding is emitted. -/
def b64uEncode : List Nat → List Char
  | [] => []
  | [b1] => [b64uChar (b1 / 4), b64uChar (b1 % 4 * 16)]
  | [b1, b2] =>
    [b64uChar (b1 / 4), b64uChar (b1 % 4 * 16 + b2 / 16), b64uChar (b2 % 16 * 4)]
  | b1 :: b2 :: b3 :: rest =>
    b64uChar (b1 / 4) :: b64uChar (b1 % 4 * 16 + b2 / 16) ::
      b64uChar (b2 % 16 * 4 + b3 / 64) :: b64uChar (b3 % 64) :: b64uEncode rest

/-- Unpadded URL-safe base64 decoding: four characters yield three bytes; a
trailing group of two or three characters yields one or two bytes; a lone
trailing character or a non-alphabet character is a decode failure. -/
def b64uDecode : List Char → Option (List Nat)
  | [] => some []
  | [c1, c2] =>
    match b64uVal c1, b64uVal c2 with
    | some v1, some v2 => some [v1 * 4 + v2 / 16]
    | _, _ => none
  | [c1, c2, c3] =>
    match b64uVal c1, b64uVal c2, b64uVal c3 with
    | some v1, some v2, some v3 =>
      some [v1 * 4 + v2 / 16, v2 % 16 * 16 + v3 / 4]
    | _, _, _ => none
  | c1 :: c2 :: c3 :: c4 :: rest =>
    match b64uVal c1, b64uVal c2, b64uVal c3, b64uVal c4, b64uDecode rest with
    | some v1, some v2, some v3, some v4, some tail =>
      some ((v1 * 4 + v2 / 16) :: (v2 % 16 * 16 + v3 / 4) :: (v3 % 4 * 64 + v4) :: tail)
    | _, _, _, _, _ => none
  | _ => none

/-- `random_token` from src/auth/oauth.rs. The Rust function draws `len`
random bytes from the thread RNG and encodes them; the model takes the drawn
bytes as the argument (each a value `< 256`) and performs the encoding step,
`URL_SAFE_NO_PAD.encode`. -/
def random_token (bytes : List Nat) : String :=
  ⟨b64uEncode bytes⟩

/-- State of the file-backed token store (src/auth/token_store.rs): per
profile, the token file's parsed content, `none` when the file is absent. -/
def FileStore : Type := String → Option TokenSet

/-- `FileTokenStore::load`: a missing file is `none`, not an error. -/
def store_load (s : FileStore) (profile : String) : Option TokenSet :=
  s profile

/-- `FileTokenStore::save`: (over)write the profile's token file. -/
def store_save (s : FileStore) (profile : String) (token : TokenSet) : FileStore :=
  fun q => if q = profile then some token else s q

/-- `FileTokenStore::clear`: remove the profile's token file if it exists. -/
def store_clear (s : FileStore) (profile : String) : FileStore :=
  fun q => if q = profile then none else s q

/-- `AuthLoginResult` from src/auth/oauth.rs. -/
structure AuthLoginResult where
  profile : String
  started : Bool
  opened_browser : Bool
  authorization_url : String
  email : Option String
  note : String
deriving DecidableEq, Repr

/-- `AuthStatus` from src/auth/oauth.rs. -/
structure AuthStatus where
  profile : String
  logged_in : Bool
  email : Option String
  expired : Option Bool
  expires_in_seconds : Option Int
  has_refresh_token : Option Bool
  note : Option String
deriving DecidableEq, Repr

/-- What the loopback listener delivers to `wait_for_auth_callback`
(src/auth/oauth.rs): either a transport-level failure (bind failure, timeout,
empty or malformed request — each already an `AppError`) or one parsed HTTP
request line `METHOD target`. -/
inductive CallbackInput where
  | transportFailure (e : AppError)
  | request (method : String) (target : String)
deriving DecidableEq, Repr

/-- The request-classification part of `wait_for_auth_callback`
(src/auth/oauth.rs): a non-GET request fails, a GET request is handed to
`extract_callback_code` against the expected path and state. -/
def wait_for_auth_callback (input : CallbackInput)
    (expected_path expected_state : String) : Except AppError String :=
  match input with
  | .transportFailure e => .error e
  | .request method target =>
    if method ≠ "GET" then
      .error (.Auth "oauth callback received non-GET request")
    else
      extract_callback_code target expected_path expected_state

/-- Outcome of a `refresh` run: the returned value, whether the token endpoint
was contacted, and what `save` wrote (if anything). -/
structure RefreshOutcome where
  result : Except AppError TokenSet
  tokenEndpointCalled : Bool
  saved : Option TokenSet
deriving DecidableEq, Repr

/-- `exchange_refresh_token` from src/auth/oauth.rs, after the network send:
`respTok` is the outcome of `parse_token_response` on the token endpoint's
reply (the parsed `TokenSet` has `email := none` and `name := none` in the
real flow), and `fetched` is the outcome of the best-effort `fetch_email`
userinfo call. A missing refresh token in the response is replaced by the
request's refresh token; a missing email is filled from userinfo when that
call succeeds, and a userinfo failure is swallowed. -/
def exchange_refresh_token (refresh_token : String)
    (respTok : Except AppError TokenSet)
    (fetched : Except AppError (Option String)) : Except AppError TokenSet :=
  match respTok with
  | .error e => .error e
  | .ok t =>
    let t := if t.refresh_token = none
      then { t with refresh_token := some refresh_token } else t
    let t := if t.email = none then
        match fetched with
        | .ok email => { t with email := email }
        | .error _ => t
      else t
    .ok t

/-- `AuthService::refresh` from src/auth/oauth.rs. `stored` is what
`store.load(profile)` found; `now` is the current clock; `respTok` and
`fetched` parameterize the network as in `exchange_refresh_token`. Not
expired ⇒ the stored set is returned unchanged with no network call and no
store write; expired without a refresh token ⇒ terminal auth error; otherwise
the refresh grant runs, the refresh token and email are carried forward when
absent from the exchange result, and the new set is persisted. -/
def AuthService.refresh (stored : Option TokenSet) (now : Int)
    (respTok : Except AppError TokenSet)
    (fetched : Except AppError (Option String)) : RefreshOutcome :=
  match stored with
  | none =>
    ⟨.error (.InvalidInput "not logged in. run `gmail auth login`"), false, none⟩
  | some current =>
    if current.is_expired now = false then ⟨.ok current, false, none⟩
    else
      match current.refresh_token with
      | none =>
        ⟨.error (.Auth "access token expired and no refresh token is stored"),
          false, none⟩
      | some refresh_token =>
        match exchange_refresh_token refresh_token respTok fetched with
        | .error e => ⟨.error e, true, none⟩
        | .ok refreshed =>
          let refreshed := if refreshed.refresh_token = none
            then { refreshed with refresh_token := some refresh_token }
            else refreshed
          let refreshed := if refreshed.email = none
            then { refreshed with email := current.email } else refreshed
          ⟨.ok refreshed, true, some refreshed⟩

/-- `AuthService::login` from src/auth/oauth.rs, from the point where the
authorization URL has been built and the browser open attempted:
`callback` is what the loopback listener delivers, `exchange` models
`exchange_auth_code` as a function of the received code, `fetched` models the
best-effort `fetch_email` call, and `store` is the token store. Returns the
login result, whether the token endpoint was contacted, and the final store
state. -/
def AuthService.login (profile authorization_url : String)
    (opened_browser : Bool) (callback : CallbackInput)
    (expected_path expected_state : String)
    (exchange : String → Except AppError TokenSet)
    (fetched : Except AppError (Option String)) (store : FileStore) :
    Except AppError AuthLoginResult × Bool × FileStore :=
  match wait_for_auth_callback callback expected_path expected_state with
  | .error e => (.error e, false, store)
  | .ok code =>
    match exchange code with
    | .error e => (.error e, true, store)
    | .ok token =>
      let token := match fetched with
        | .ok email => { token with email := email }
        | .error _ => token
      let store := store_save store profile token
      (.ok ⟨profile, true, opened_browser, authorization_url, token.email,
        "oauth login completed and token stored"⟩, true, store)

/-- `AuthService::logout` from src/auth/oauth.rs. `revoke` models the revoke
endpoint as a function of the token submitted to it. Returns the status
record, the final store state, and whether `store.clear` was invoked. -/
def AuthService.logout (store : FileStore) (profile : String)
    (revoke : String → Except AppError Unit) :
    AuthStatus × FileStore × Bool :=
  let note :=
    match store_load store profile with
    | some token =>
      let token_to_revoke := token.refresh_token.getD token.access_token
      match revoke token_to_revoke with
      | .ok _ => "remote token revoked and local credentials removed"
      | .error err =>
        "local credentials removed (revoke failed: " ++ err.render ++ ")"
    | none => "local credentials removed"
  let store := store_clear store profile
  (⟨profile, false, none, none, none, none, some note⟩, store, true)

/-- Sample stored record with an expiry timestamp, for concrete instances. -/
def tokExp120 : TokenSet :=
  ⟨"access-a", some "refresh-a", some 120, some "Bearer", none,
    some "user@example.com", none⟩

/-- Sample stored record with no expiry timestamp. -/
def tokNoExpiry : TokenSet :=
  ⟨"access-b", some "refresh-b", none, some "Bearer", none, none, none⟩

/-- Sample stored record whose expiry is the epoch itself. -/
def tokExp0 : TokenSet :=
  ⟨"access-c", none, some 0, none, none, none, none⟩

/-- Sample expired stored record carrying a refresh token and an email. -/
def curStored : TokenSet :=
  ⟨"old-access", some "rt0", some 100, some "Bearer", none,
    some "old@example.com", none⟩

/-- Sample refresh-grant response record lacking both a rotated refresh token
and an email, as `parse_token_response` produces. -/
def respNoRotate : TokenSet :=
  ⟨"new-access", none, some 4000, some "Bearer", none, none, none⟩

section Claims

/-! Theorems settling the specification claims. -/

/-- C5: for every `TokenSet` and clock, `is_expired now` is `false` when
`expires_at_unix` is absent; and when `expires_at_unix = some e` and the clock
is at or after the epoch (so that it has a Unix-seconds reading `now_secs`),
`is_expired now` is `true` iff `now_secs + 30 ≥ e`, with `30` the fixed
clock-skew buffer. -/
theorem is_expired_spec (t : TokenSet) (now : Int) :
    (t.expires_at_unix = none → t.is_expired now = false) ∧
    (∀ e, t.expires_at_unix = some e → 0 ≤ now →
      (t.is_expired now = true ↔ now.toNat + 30 ≥ e)) := by
  constructor
  · intro h
    simp [TokenSet.is_expired, h]
  · intro e he hnow
    have h0 : ¬ now < 0 := by omega
    simp [TokenSet.is_expired, he, h0, EXPIRY_SKEW_SECS]

/-- Witness for C5: a record expiring at 120 is expired at clock 100 (since
100 + 30 ≥ 120), and a record without expiry is not expired at clock 100. -/
theorem is_expired_spec_witness :
    tokExp120.is_expired 100 = true ∧ tokNoExpiry.is_expired 100 = false := by
  constructor
  · exact ((is_expired_spec tokExp120 100).2 120 rfl (by decide)).mpr (by decide)
  · exact (is_expired_spec tokNoExpiry 100).1 rfl

/-- C10: with a clock strictly before the Unix epoch, `is_expired` returns
`false` even when an expiry timestamp is present and arbitrarily small:
`duration_since(UNIX_EPOCH)` fails and the code treats the record as not
expired. -/
theorem is_expired_pre_epoch (t : TokenSet) (now : Int) (e : Nat)
    (he : t.expires_at_unix = some e) (hnow : now < 0) :
    t.is_expired now = false := by
  simp [TokenSet.is_expired, he, hnow]

/-- Witness for C10: a record that expired at the epoch itself is reported as
not expired at clock −5. -/
theorem is_expired_pre_epoch_witness : tokExp0.is_expired (-5) = false :=
  is_expired_pre_epoch tokExp0 (-5) 0 rfl (by decide)

/-- C8: a callback target whose path matches, whose query carries no `error`
parameter, whose `state` equals the expected state and whose `code` is `c`
makes `extract_callback_code` return `Ok c`. -/
theorem extract_callback_code_ok (target ep es c : String)
    (hpath : targetPath target = ep)
    (herr : (callbackParams target).oauth_error = none)
    (hstate : (callbackParams target).state = some es)
    (hcode : (callbackParams target).code = some c) :
    extract_callback_code target ep es = .ok c := by
  simp [extract_callback_code, hpath, herr, hstate, hcode]

/-- Witness for C8: the concrete instance from the specification,
`parse("/cb?code=abc123&state=xyz", "/cb", "xyz") = Ok("abc123")`. -/
theorem extract_callback_code_ok_witness :
    extract_callback_code "/cb?code=abc123&state=xyz" "/cb" "xyz" =
      .ok "abc123" :=
  extract_callback_code_ok _ _ _ _ rfl rfl rfl rfl

/-- C7: a callback target whose path matches and whose query carries an
`error` parameter makes `extract_callback_code` fail with an auth error whose
message carries both the error and the (defaulted) error description, and it
never yields a code — even when `code` and a matching `state` are present. -/
theorem extract_provider_error (target ep es e : String)
    (hpath : targetPath target = ep)
    (herr : (callbackParams target).oauth_error = some e) :
    extract_callback_code target ep es =
      .error (.Auth ("oauth authorization failed: " ++ e ++ " ("
        ++ (callbackParams target).oauth_error_description.getD "no description"
        ++ ")")) ∧
    ∀ c, extract_callback_code target ep es ≠ .ok c := by
  have hmain : extract_callback_code target ep es =
      .error (.Auth ("oauth authorization failed: " ++ e ++ " ("
        ++ (callbackParams target).oauth_error_description.getD "no description"
        ++ ")")) := by
    simp [extract_callback_code, hpath, herr]
  exact ⟨hmain, fun c hc => by rw [hmain] at hc; exact Except.noConfusion hc⟩

/-- Witness for C7: the specification's example target, additionally carrying
a code and a matching state; the error and the form-decoded description both
appear in the message, and the present code is not returned. -/
theorem extract_provider_error_witness :
    extract_callback_code
        "/cb?error=access_denied&error_description=User+said+no&code=abc123&state=xyz"
        "/cb" "xyz" =
      .error (.Auth "oauth authorization failed: access_denied (User said no)") ∧
    extract_callback_code
        "/cb?error=access_denied&error_description=User+said+no&code=abc123&state=xyz"
        "/cb" "xyz" ≠ .ok "abc123" := by
  have h := extract_provider_error
    "/cb?error=access_denied&error_description=User+said+no&code=abc123&state=xyz"
    "/cb" "xyz" "access_denied" rfl rfl
  exact ⟨h.1, h.2 "abc123"⟩

/-- C1 counterexample: with the `state` parameter absent (path matching, no
`error` parameter, a `code` present), `extract_callback_code` returns the
missing-state auth error, not the state-mismatch auth error that the claim
asserts for the absent-state case. -/
theorem state_guard_counterexample :
    extract_callback_code "/cb?code=abc123" "/cb" "xyz" =
      .error (.Auth "oauth callback missing state parameter") ∧
    extract_callback_code "/cb?code=abc123" "/cb" "xyz" ≠
      .error (.Auth "oauth state mismatch; aborting login") :=
  ⟨rfl, by decide⟩

/-- C1 amended: for a callback target whose path matches and whose query has
no `error` parameter, an absent `state` yields the missing-state auth error,
a present `state` different from the expected value yields the state-mismatch
auth error, and in both cases no authorization code is ever returned, even
when a `code` parameter is present. -/
theorem state_guard_amended (target ep es : String)
    (hpath : targetPath target = ep)
    (herr : (callbackParams target).oauth_error = none) :
    ((callbackParams target).state = none →
      extract_callback_code target ep es =
        .error (.Auth "oauth callback missing state parameter")) ∧
    (∀ s, (callbackParams target).state = some s → s ≠ es →
      extract_callback_code target ep es =
        .error (.Auth "oauth state mismatch; aborting login")) ∧
    (((callbackParams target).state = none ∨
        ∃ s, (callbackParams target).state = some s ∧ s ≠ es) →
      ∀ c, extract_callback_code target ep es ≠ .ok c) := by
  refine ⟨?_, ?_, ?_⟩
  · intro hstate
    simp [extract_callback_code, hpath, herr, hstate]
  · intro s hstate hne
    simp [extract_callback_code, hpath, herr, hstate, hne]
  · rintro (hstate | ⟨s, hstate, hne⟩) c hc
    · rw [(by simp [extract_callback_code, hpath, herr, hstate] :
        extract_callback_code target ep es =
          .error (.Auth "oauth callback missing state parameter"))] at hc
      exact Except.noConfusion hc
    · rw [(by simp [extract_callback_code, hpath, herr, hstate, hne] :
        extract_callback_code target ep es =
          .error (.Auth "oauth state mismatch; aborting login"))] at hc
      exact Except.noConfusion hc

/-- Witness for the amended C1: mismatching state gives the state-mismatch
error and the present code is not returned. -/
theorem state_guard_amended_witness :
    extract_callback_code "/cb?code=abc123&state=xyz" "/cb" "other" =
      .error (.Auth "oauth state mismatch; aborting login") ∧
    extract_callback_code "/cb?code=abc123&state=xyz" "/cb" "other" ≠
      .ok "abc123" := by
  have h := state_guard_amended "/cb?code=abc123&state=xyz" "/cb" "other" rfl rfl
  exact ⟨(h.2.1 "xyz" rfl (by decide)),
    h.2.2 (Or.inr ⟨"xyz", rfl, by decide⟩) "abc123"⟩

/-- C2: whenever the step before the token exchange fails — the loopback
callback ends in any error, in particular a provider `error` parameter such as
`access_denied` — `login` returns that error, the token endpoint is never
contacted, and the token store is left exactly as it was: no partial
credential is persisted. -/
theorem login_aborts_before_exchange (profile authorization_url : String)
    (opened_browser : Bool) (cb : CallbackInput) (ep es : String)
    (exchange : String → Except AppError TokenSet)
    (fetched : Except AppError (Option String)) (store : FileStore)
    (e : AppError)
    (h : wait_for_auth_callback cb ep es = .error e) :
    AuthService.login profile authorization_url opened_browser cb ep es
      exchange fetched store = (.error e, false, store) := by
  simp [AuthService.login, h]

/-- Witness for C2: a provider that redirects with `error=access_denied`
makes `login` fail with the propagated auth error, with the token-endpoint
flag `false` and the (empty) store unchanged. -/
theorem login_aborts_before_exchange_witness :
    AuthService.login "default" "https://accounts.example/auth" false
      (.request "GET" "/cb?error=access_denied&error_description=User+said+no")
      "/cb" "xyz" (fun _ => .error (.Auth "token endpoint must not be called"))
      (.ok none) (fun _ => none) =
    (.error (.Auth "oauth authorization failed: access_denied (User said no)"),
      false, fun _ => none) :=
  login_aborts_before_exchange "default" "https://accounts.example/auth" false
    (.request "GET" "/cb?error=access_denied&error_description=User+said+no")
    "/cb" "xyz" (fun _ => .error (.Auth "token endpoint must not be called"))
    (.ok none) (fun _ => none)
    (.Auth "oauth authorization failed: access_denied (User said no)") rfl

/-- C6: a stored record that is not expired at the current clock is returned
unchanged by `refresh`, with no token-endpoint call and no store write. -/
theorem refresh_not_expired_noop (cur : TokenSet) (now : Int)
    (respTok : Except AppError TokenSet)
    (fetched : Except AppError (Option String))
    (h : cur.is_expired now = false) :
    AuthService.refresh (some cur) now respTok fetched =
      ⟨.ok cur, false, none⟩ := by
  simp [AuthService.refresh, h]

/-- Witness for C6: a never-expiring stored record is passed through `refresh`
untouched. -/
theorem refresh_not_expired_noop_witness :
    AuthService.refresh (some tokNoExpiry) 1000 (.ok respNoRotate) (.ok none) =
      ⟨.ok tokNoExpiry, false, none⟩ :=
  refresh_not_expired_noop tokNoExpiry 1000 (.ok respNoRotate) (.ok none) rfl

/-- C4: when the store holds a token for the profile and the revoke endpoint
fails, `logout` still invokes `clear`, the profile's entry afterwards loads as
`none`, and the revoke failure is only recorded in the returned status note. -/
theorem logout_always_clears (store : FileStore) (profile : String)
    (revoke : String → Except AppError Unit) (token : TokenSet)
    (err : AppError)
    (hload : store_load store profile = some token)
    (hrev : revoke (token.refresh_token.getD token.access_token) = .error err) :
    (AuthService.logout store profile revoke).2.2 = true ∧
    store_load (AuthService.logout store profile revoke).2.1 profile = none ∧
    (AuthService.logout store profile revoke).1.note =
      some ("local credentials removed (revoke failed: " ++ err.render ++ ")") := by
  refine ⟨rfl, ?_, ?_⟩
  · simp [AuthService.logout, store_load, store_clear]
  · simp [AuthService.logout, hload, hrev]

/-- Witness for C4: a store holding a record for profile `default` and a
revoke endpoint answering 500; the local entry is gone afterwards and the
failure appears only in the note. -/
theorem logout_always_clears_witness :
    (AuthService.logout (fun _ => some curStored) "default"
        (fun _ => .error (.Auth "revoke endpoint returned 500"))).2.2 = true ∧
    store_load (AuthService.logout (fun _ => some curStored) "default"
        (fun _ => .error (.Auth "revoke endpoint returned 500"))).2.1
      "default" = none ∧
    (AuthService.logout (fun _ => some curStored) "default"
        (fun _ => .error (.Auth "revoke endpoint returned 500"))).1.note =
      some "local credentials removed (revoke failed: auth error: revoke endpoint returned 500)" :=
  logout_always_clears (fun _ => some curStored) "default"
    (fun _ => .error (.Auth "revoke endpoint returned 500")) curStored
    (.Auth "revoke endpoint returned 500") rfl rfl

/-- C3: for an expired stored record holding a refresh token, when the
refresh-grant exchange succeeds but its response carries no rotated refresh
token, the record that `refresh` returns and persists keeps the original
refresh token (never `none`); and when the exchange result carries no email,
the original email is retained. -/
theorem refresh_preserves_refresh_token (cur t : TokenSet) (now : Int)
    (rt : String) (fetched : Except AppError (Option String))
    (hexp : cur.is_expired now = true)
    (hrt : cur.refresh_token = some rt)
    (hnort : t.refresh_token = none) :
    ∃ r, (AuthService.refresh (some cur) now (.ok t) fetched).result = .ok r ∧
      (AuthService.refresh (some cur) now (.ok t) fetched).saved = some r ∧
      r.refresh_token = some rt ∧
      (∀ t', exchange_refresh_token rt (.ok t) fetched = .ok t' →
        t'.email = none → r.email = cur.email) := by
  obtain ⟨ta, trt, tex, ttt, tsc, tem, tnm⟩ := t
  simp only at hnort
  subst hnort
  rcases fetched with fe | femail
  · rcases tem with _ | em
    · refine ⟨⟨ta, some rt, tex, ttt, tsc, cur.email, tnm⟩, ?_, ?_, rfl, ?_⟩
      · simp [AuthService.refresh, exchange_refresh_token, hexp, hrt]
      · simp [AuthService.refresh, exchange_refresh_token, hexp, hrt]
      · intro t' _ _
        rfl
    · refine ⟨⟨ta, some rt, tex, ttt, tsc, some em, tnm⟩, ?_, ?_, rfl, ?_⟩
      · simp [AuthService.refresh, exchange_refresh_token, hexp, hrt]
      · simp [AuthService.refresh, exchange_refresh_token, hexp, hrt]
      · intro t' ht' hem'
        simp [exchange_refresh_token] at ht'
        subst ht'
        simp at hem'
  · rcases tem with _ | em
    · rcases femail with _ | e2
      · refine ⟨⟨ta, some rt, tex, ttt, tsc, cur.email, tnm⟩, ?_, ?_, rfl, ?_⟩
        · simp [AuthService.refresh, exchange_refresh_token, hexp, hrt]
        · simp [AuthService.refresh, exchange_refresh_token, hexp, hrt]
        · intro t' _ _
          rfl
      · refine ⟨⟨ta, some rt, tex, ttt, tsc, some e2, tnm⟩, ?_, ?_, rfl, ?_⟩
        · simp [AuthService.refresh, exchange_refresh_token, hexp, hrt]
        · simp [AuthService.refresh, exchange_refresh_token, hexp, hrt]
        · intro t' ht' hem'
          simp [exchange_refresh_token] at ht'
          subst ht'
          simp at hem'
    · refine ⟨⟨ta, some rt, tex, ttt, tsc, some em, tnm⟩, ?_, ?_, rfl, ?_⟩
      · simp [AuthService.refresh, exchange_refresh_token, hexp, hrt]
      · simp [AuthService.refresh, exchange_refresh_token, hexp, hrt]
      · intro t' ht' hem'
        simp [exchange_refresh_token] at ht'
        subst ht'
        simp at hem'

/-- Witness for C3: refreshing an expired record with refresh token `rt0` and
email `old@example.com`, against a grant response with no rotated refresh
token and a failing userinfo call, returns and persists a record carrying
`rt0` and the original email. -/
theorem refresh_preserves_refresh_token_witness :
    ∃ r, (AuthService.refresh (some curStored) 1000 (.ok respNoRotate)
        (.error (.Auth "userinfo unavailable"))).result = .ok r ∧
      (AuthService.refresh (some curStored) 1000 (.ok respNoRotate)
        (.error (.Auth "userinfo unavailable"))).saved = some r ∧
      r.refresh_token = some "rt0" ∧
      (∀ t', exchange_refresh_token "rt0" (.ok respNoRotate)
          (.error (.Auth "userinfo unavailable")) = .ok t' →
        t'.email = none → r.email = curStored.email) :=
  refresh_preserves_refresh_token curStored respNoRotate 1000 "rt0"
    (.error (.Auth "userinfo unavailable")) rfl rfl rfl

/-- The URL-safe alphabet inverts its own encoding on all 64 indices. -/
theorem b64uVal_b64uChar : ∀ i, i < 64 → b64uVal (b64uChar i) = some i := by
  decide

/-- No alphabet character is the padding character. -/
theorem b64uChar_ne_pad : ∀ i, i < 64 → b64uChar i ≠ '=' := by
  decide

/-- Unpadded URL-safe base64 encoding of bytes emits no `=`. -/
theorem b64uEncode_no_pad : ∀ (l : List Nat), (∀ b ∈ l, b < 256) →
    '=' ∉ b64uEncode l
  | [], _ => by simp [b64uEncode]
  | [b1], h => by
    have hb1 : b1 < 256 := h b1 (by simp)
    intro hmem
    simp [b64uEncode] at hmem
    rcases hmem with hmem | hmem
    · exact b64uChar_ne_pad _ (by omega) hmem.symm
    · exact b64uChar_ne_pad _ (by omega) hmem.symm
  | [b1, b2], h => by
    have hb1 : b1 < 256 := h b1 (by simp)
    have hb2 : b2 < 256 := h b2 (by simp)
    intro hmem
    simp [b64uEncode] at hmem
    rcases hmem with hmem | hmem | hmem
    · exact b64uChar_ne_pad _ (by omega) hmem.symm
    · exact b64uChar_ne_pad _ (by omega) hmem.symm
    · exact b64uChar_ne_pad _ (by omega) hmem.symm
  | b1 :: b2 :: b3 :: rest, h => by
    have hb1 : b1 < 256 := h b1 (by simp)
    have hb2 : b2 < 256 := h b2 (by simp)
    have hb3 : b3 < 256 := h b3 (by simp)
    have IH := b64uEncode_no_pad rest (fun b hb => h b (by simp [hb]))
    intro hmem
    simp [b64uEncode] at hmem
    rcases hmem with hmem | hmem | hmem | hmem | hmem
    · exact b64uChar_ne_pad _ (by omega) hmem.symm
    · exact b64uChar_ne_pad _ (by omega) hmem.symm
    · exact b64uChar_ne_pad _ (by omega) hmem.symm
    · exact b64uChar_ne_pad _ (by omega) hmem.symm
    · exact IH hmem

/-- Unpadded URL-safe base64 decoding inverts the encoding on byte lists. -/
theorem b64u_roundtrip : ∀ (l : List Nat), (∀ b ∈ l, b < 256) →
    b64uDecode (b64uEncode l) = some l
  | [], _ => rfl
  | [b1], h => by
    have hb1 : b1 < 256 := h b1 (by simp)
    have h1 := b64uVal_b64uChar (b1 / 4) (by omega)
    have h2 := b64uVal_b64uChar (b1 % 4 * 16) (by omega)
    simp [b64uEncode, b64uDecode, h1, h2]
    omega
  | [b1, b2], h => by
    have hb1 : b1 < 256 := h b1 (by simp)
    have hb2 : b2 < 256 := h b2 (by simp)
    have h1 := b64uVal_b64uChar (b1 / 4) (by omega)
    have h2 := b64uVal_b64uChar (b1 % 4 * 16 + b2 / 16) (by omega)
    have h3 := b64uVal_b64uChar (b2 % 16 * 4) (by omega)
    simp [b64uEncode, b64uDecode, h1, h2, h3]
    omega
  | b1 :: b2 :: b3 :: rest, h => by
    have hb1 : b1 < 256 := h b1 (by simp)
    have hb2 : b2 < 256 := h b2 (by simp)
    have hb3 : b3 < 256 := h b3 (by simp)
    have IH := b64u_roundtrip rest (fun b hb => h b (by simp [hb]))
    have h1 := b64uVal_b64uChar (b1 / 4) (by omega)
    have h2 := b64uVal_b64uChar (b1 % 4 * 16 + b2 / 16) (by omega)
    have h3 := b64uVal_b64uChar (b2 % 16 * 4 + b3 / 64) (by omega)
    have h4 := b64uVal_b64uChar (b3 % 64) (by omega)
    simp [b64uEncode, b64uDecode, h1, h2, h3, h4, IH]
    omega

/-- C9: for every byte count `n ≥ 32` and every list of `n` byte values, the
token generator's output — the unpadded URL-safe base64 encoding of those
bytes — contains no `=` character and decodes back to exactly the `n` input
bytes; the 96-byte code verifier and the 32-byte state are instances. -/
theorem random_token_spec (n : Nat) (bytes : List Nat) (_hn : 32 ≤ n)
    (hlen : bytes.length = n) (hb : ∀ b ∈ bytes, b < 256) :
    '=' ∉ (random_token bytes).data ∧
    b64uDecode (random_token bytes).data = some bytes ∧
    ∃ decoded, b64uDecode (random_token bytes).data = some decoded ∧
      decoded.length = n := by
  have hnp := b64uEncode_no_pad bytes hb
  have hrt := b64u_roundtrip bytes hb
  exact ⟨hnp, hrt, bytes, hrt, hlen⟩

/-- Witness for C9 at the 32-byte state size, on the concrete byte list
`0, 1, …, 31`. -/
theorem random_token_spec_witness :
    '=' ∉ (random_token (List.range 32)).data ∧
    b64uDecode (random_token (List.range 32)).data = some (List.range 32) := by
  have h := random_token_spec 32 (List.range 32) (by decide) (by decide)
    (by decide)
  exact ⟨h.1, h.2.1⟩

end Claims

end GmailCli

